import Mathlib

/-!
Shallow embedding of the news-sentiment-analyzer pipeline
(`src/services/scraper.ts`, `src/services/webScraper.ts`,
`src/services/analytics.ts`, `src/services/analytics-complex.ts`,
`src/lib/systemLogger.ts`), with theorems checking the specification's
claims against it.

Machine numbers (sentiment scores, thresholds, percentages) are modelled
as rationals; JavaScript `undefined` as `Option`; a failed external call
as `Except`/`Option`.  External primitives that live outside the
repository (SHA-256, the native `Date` parser, the NLP endpoint) are
abstracted as function parameters.
-/

namespace NewsSA

/-- JavaScript `x || d` on a numeric field that may be `undefined`:
`undefined` and `0` are falsy, every other number is kept. -/
def jsOrNum (x : Option ℚ) (d : ℚ) : ℚ :=
  match x with
  | none => d
  | some v => if v = 0 then d else v

/-- JavaScript `a || b` on a string field that may be `undefined`:
`undefined` and the empty string are falsy. -/
def jsOrStr (a : Option String) (b : Option String) : Option String :=
  match a with
  | none => b
  | some s => if s = "" then b else some s

/-- JavaScript `s.includes(sub)`: substring containment. -/
def jsIncludes (s sub : String) : Bool :=
  s.toList.tails.any (fun t => sub.toList.isPrefixOf t)

/-- JavaScript `s.toLowerCase()` (character-wise, as used on ASCII labels). -/
def jsToLower (s : String) : String :=
  String.mk (s.toList.map Char.toLower)

/-- JavaScript `s.trim()`: strip whitespace from both ends. -/
def jsTrim (s : String) : String :=
  String.mk (((s.toList.dropWhile Char.isWhitespace).reverse.dropWhile
    Char.isWhitespace).reverse)

/-! ## `src/lib/systemLogger.ts` -/

/-- One entry of the in-memory system log (`SystemLog` in
`src/lib/systemLogger.ts`); `details` is kept opaque as a string. -/
structure SystemLog where
  timestamp : String
  level : String
  message : String
  details : Option String
deriving DecidableEq, Repr

/-- `MAX_LOGS` in `src/lib/systemLogger.ts`. -/
def MAX_LOGS : ℕ := 1000

/-- `addSystemLog` in `src/lib/systemLogger.ts`: prepend (`unshift`) the
new entry, then keep only the first `MAX_LOGS` entries (`slice(0, MAX_LOGS)`)
when the bound is exceeded. -/
def addSystemLog (logs : List SystemLog) (e : SystemLog) : List SystemLog :=
  let logs' := e :: logs
  if MAX_LOGS < logs'.length then logs'.take MAX_LOGS else logs'

/-! ## `src/services/webScraper.ts` — sentiment enrichment (OpenRouter client) -/

/-- Sentiment label after normalization. -/
inductive SentimentLabel
  | positive
  | negative
  | neutral
deriving DecidableEq, Repr

/-- The per-emotion block of a parsed sentiment JSON reply; every field may
be absent (`undefined`). -/
structure EmotionsJson where
  joy : Option ℚ
  anger : Option ℚ
  fear : Option ℚ
  sadness : Option ℚ
  surprise : Option ℚ
  disgust : Option ℚ
deriving DecidableEq, Repr

/-- A parsed sentiment JSON reply from the model; every field may be absent. -/
structure SentimentJson where
  score : Option ℚ
  confidence : Option ℚ
  label : Option String
  emotions : Option EmotionsJson
deriving DecidableEq, Repr

/-- Clamped per-emotion scores of the final `SentimentAnalysis`. -/
structure Emotions where
  joy : ℚ
  anger : ℚ
  fear : ℚ
  sadness : ℚ
  surprise : ℚ
  disgust : ℚ
deriving DecidableEq, Repr

/-- `SentimentAnalysis` in `src/services/webScraper.ts`. -/
structure SentimentAnalysis where
  score : ℚ
  confidence : ℚ
  label : SentimentLabel
  emotions : Option Emotions
deriving DecidableEq, Repr

/-- `normalizeSentimentLabel` in `src/services/webScraper.ts`:
lowercase the label (if present), return `positive`/`negative` when the
lowercased text contains that word, else `neutral`. -/
def normalizeSentimentLabel (label : Option String) : SentimentLabel :=
  match label with
  | none => .neutral
  | some l =>
    let n := jsToLower l
    if jsIncludes n "positive" then .positive
    else if jsIncludes n "negative" then .negative
    else .neutral

/-- The fallback object `callOpenRouter` returns for type `sentiment`
when JSON parsing of the model reply fails. -/
def sentimentParseFallback : SentimentJson :=
  { score := some 0, confidence := some (1/10), label := some "neutral",
    emotions := none }

/-- The JSON-parsing tail of `callOpenRouter` for type `sentiment`
(`src/services/webScraper.ts`): a successfully parsed reply is returned
as-is, a parse failure yields the documented neutral fallback object.
The fenced-block/brace extraction and `JSON.parse` themselves are
external text processing, modelled by the `Option` input
(`none` = no parseable JSON object). -/
def callOpenRouterSentiment (parsed : Option SentimentJson) : SentimentJson :=
  match parsed with
  | some j => j
  | none => sentimentParseFallback

/-- Clamp one emotion score to `[0,1]` (`Math.max(0, Math.min(1, e || 0))`). -/
def clampEmotion (x : Option ℚ) : ℚ :=
  max 0 (min 1 (jsOrNum x 0))

/-- The neutral fallback `analyzeSentiment` returns from its `catch`
branch on any transport error. -/
def sentimentErrorFallback : SentimentAnalysis :=
  { score := 0, confidence := 1/10, label := .neutral, emotions := none }

/-- `analyzeSentiment` in `src/services/webScraper.ts`.  The argument is
the outcome of the OpenRouter round-trip: `Except.error` is a transport
error (caught, neutral fallback), `Except.ok parsed` is a completed call
whose reply either parsed to a JSON object (`some`) or not (`none`).
On the ok path the parsed object is validated and normalized: score
clamped to `[-1,1]` after `result.score || 0`, confidence clamped to
`[0,1]` after `result.confidence || 0.5`, label normalized, emotions
clamped to `[0,1]` when present. -/
def analyzeSentiment (call : Except Unit (Option SentimentJson)) :
    SentimentAnalysis :=
  match call with
  | .error _ => sentimentErrorFallback
  | .ok parsed =>
    let result := callOpenRouterSentiment parsed
    { score := max (-1) (min 1 (jsOrNum result.score 0))
      confidence := max 0 (min 1 (jsOrNum result.confidence (1/2)))
      label := normalizeSentimentLabel result.label
      emotions := result.emotions.map (fun e =>
        { joy := clampEmotion e.joy
          anger := clampEmotion e.anger
          fear := clampEmotion e.fear
          sadness := clampEmotion e.sadness
          surprise := clampEmotion e.surprise
          disgust := clampEmotion e.disgust }) }

/-! ## `src/services/analytics.ts` — alert evaluator (`checkKeywordAlerts`) -/

/-- Alert severity (`src/models`). -/
inductive Severity
  | low
  | medium
  | high
  | critical
deriving DecidableEq, Repr

/-- Alert kind, restricted to the two kinds `checkKeywordAlerts` emits. -/
inductive AlertKind
  | volume_spike
  | sentiment_change
deriving DecidableEq, Repr

/-- An emitted alert record (kind and severity, the fields the claims
are about; the message string embeds the same numbers as `data`). -/
structure AlertRec where
  kind : AlertKind
  severity : Severity
deriving DecidableEq, Repr

/-- The per-track threshold pair (`keywordTrack.alertThreshold`). -/
structure AlertThreshold where
  sentimentChange : ℚ
  volumeSpike : ℚ
deriving DecidableEq, Repr

/-- The volume-spike percent change in `checkKeywordAlerts`
(`src/services/analytics.ts`):
`previousCount > 0 ? ((recentCount - previousCount) / previousCount) * 100 : 0`. -/
def volumeChange (recentCount previousCount : ℕ) : ℚ :=
  if 0 < previousCount then
    (((recentCount : ℚ) - (previousCount : ℚ)) / (previousCount : ℚ)) * 100
  else 0

/-- `checkKeywordAlerts` in `src/services/analytics.ts`, for one keyword
track.  An article is represented by its sentiment score; `recent` and
`previous` are the scores of the articles found in the last-24h and the
previous-24h query.  Returns the alerts created (volume spike first,
then sentiment change, in program order). -/
def checkKeywordAlerts (recent previous : List ℚ)
    (threshold : AlertThreshold) : List AlertRec :=
  let recentCount := recent.length
  let previousCount := previous.length
  let vc := volumeChange recentCount previousCount
  let volAlerts : List AlertRec :=
    if threshold.volumeSpike ≤ vc then
      [{ kind := .volume_spike,
         severity := if 100 < vc then .high else .medium }]
    else []
  let sentAlerts : List AlertRec :=
    if 0 < recent.length ∧ 0 < previous.length then
      let recentSentiment := recent.sum / (recent.length : ℚ)
      let previousSentiment := previous.sum / (previous.length : ℚ)
      let sc := |recentSentiment - previousSentiment| * 100
      if threshold.sentimentChange ≤ sc then
        [{ kind := .sentiment_change,
           severity := if 50 < sc then .high else .medium }]
      else []
    else []
  volAlerts ++ sentAlerts

/-- The sentiment percent change of `checkKeywordAlerts`, as computed in
its guarded branch: `|recentMean - previousMean| * 100` over the two
guarded arithmetic means. -/
def sentimentChangeOf (recent previous : List ℚ) : ℚ :=
  |recent.sum / (recent.length : ℚ) - previous.sum / (previous.length : ℚ)| * 100

/-! ## `src/services/analytics.ts` — dashboard metrics -/

/-- A persisted article as the analytics engine reads it: sentiment
score and label, keyword list, source name. -/
structure ArticleDoc where
  sentimentScore : ℚ
  sentimentLabel : SentimentLabel
  keywords : List String
  source : String
deriving DecidableEq, Repr

/-- Per-label article counts (`sentimentDistribution`). -/
structure SentimentDistribution where
  positive : ℕ
  negative : ℕ
  neutral : ℕ
deriving DecidableEq, Repr

/-- One entry of `topKeywords`/`topSources`: key, article count, mean
sentiment of the counted articles. -/
structure TopEntry where
  key : String
  count : ℕ
  sentiment : ℚ
deriving DecidableEq, Repr

/-- The `overview` block of `DashboardMetrics` (the parts the claims
are about; `recentAlerts` comes from a separate collection query). -/
structure Overview where
  totalArticles : ℕ
  averageSentiment : ℚ
  sentimentDistribution : SentimentDistribution
  topKeywords : List TopEntry
  topSources : List TopEntry
deriving DecidableEq, Repr

/-- Accumulate one occurrence of key `k` carrying sentiment `score` into
the count table, in JavaScript object insertion order. -/
def bumpCount (m : List (String × ℕ × ℚ)) (k : String) (score : ℚ) :
    List (String × ℕ × ℚ) :=
  match m with
  | [] => [(k, 1, score)]
  | (k', c, s) :: rest =>
    if k' = k then (k', c + 1, s + score) :: rest
    else (k', c, s) :: bumpCount rest k score

/-- `keywordCounts` accumulation in `generateDashboardMetrics`: one bump
per keyword occurrence per article. -/
def keywordCounts (articles : List ArticleDoc) : List (String × ℕ × ℚ) :=
  articles.foldl
    (fun m a => a.keywords.foldl (fun m' k => bumpCount m' k a.sentimentScore) m)
    []

/-- `sourceCounts` accumulation in `generateDashboardMetrics`: one bump
per article. -/
def sourceCounts (articles : List ArticleDoc) : List (String × ℕ × ℚ) :=
  articles.foldl (fun m a => bumpCount m a.source a.sentimentScore) []

/-- Insert an entry into a list sorted by descending count
(models the JavaScript `.sort((a, b) => b.count - a.count)`). -/
def insertByCount (e : TopEntry) : List TopEntry → List TopEntry
  | [] => [e]
  | x :: xs => if x.count ≤ e.count then e :: x :: xs else x :: insertByCount e xs

/-- Sort entries by descending count. -/
def sortByCountDesc (l : List TopEntry) : List TopEntry :=
  l.foldr insertByCount []

/-- The `.map(... guarded mean ...).sort(by count desc).slice(0, 10)`
pipeline applied to a count table. -/
def topTen (m : List (String × ℕ × ℚ)) : List TopEntry :=
  (sortByCountDesc (m.map (fun p =>
    { key := p.1, count := p.2.1,
      sentiment := if 0 < p.2.1 then p.2.2 / (p.2.1 : ℚ) else 0 }))).take 10

/-- Count articles carrying the given label
(the `sentimentDistribution` reduce). -/
def countLabel (articles : List ArticleDoc) (l : SentimentLabel) : ℕ :=
  (articles.filter (fun a => a.sentimentLabel = l)).length

/-- The guarded mean used throughout the analytics engine
(`count > 0 ? sum / count : 0`), applied to a list of scores. -/
def guardedMean (scores : List ℚ) : ℚ :=
  if 0 < scores.length then scores.sum / (scores.length : ℚ) else 0

/-- The pure core of `generateDashboardMetrics`
(`src/services/analytics.ts`), applied to the articles the time-window
query returned. -/
def generateDashboardOverview (articles : List ArticleDoc) : Overview :=
  { totalArticles := articles.length
    averageSentiment :=
      if 0 < articles.length then
        (articles.map (fun a => a.sentimentScore)).sum / (articles.length : ℚ)
      else 0
    sentimentDistribution :=
      { positive := countLabel articles .positive
        negative := countLabel articles .negative
        neutral := countLabel articles .neutral }
    topKeywords := topTen (keywordCounts articles)
    topSources := topTen (sourceCounts articles) }

/-- One point of `generateSimpleTrend`'s sentiment series: the guarded
mean over the articles of one calendar bucket. -/
def trendValue (dayScores : List ℚ) : ℚ :=
  guardedMean dayScores

/-! ## `src/services/analytics-complex.ts` — snapshot caching -/

/-- Timeframe selector. -/
inductive Timeframe
  | hour
  | day
  | week
  | month
deriving DecidableEq, Repr

/-- A persisted `Analytics` snapshot record: bucket-start timestamp,
timeframe, metrics payload. -/
structure AnalyticsRec where
  date : ℤ
  timeframe : Timeframe
  metrics : Overview
deriving DecidableEq, Repr

/-- The loop body of `generateAndCacheAnalytics`
(`src/services/analytics-complex.ts`) for one timeframe: look for an
existing snapshot with the same `(date, timeframe)`; if one exists the
iteration is a no-op, otherwise compute metrics and append a new record. -/
def cacheStep (db : List AnalyticsRec) (tf : Timeframe) (dateToCache : ℤ)
    (metrics : Overview) : List AnalyticsRec :=
  if db.any (fun r => r.date = dateToCache ∧ r.timeframe = tf) then db
  else db ++ [{ date := dateToCache, timeframe := tf, metrics := metrics }]

/-- Number of persisted snapshots for one `(timeframe, bucket-start)` pair. -/
def countBucket (db : List AnalyticsRec) (tf : Timeframe) (d : ℤ) : ℕ :=
  (db.filter (fun r => r.date = d ∧ r.timeframe = tf)).length

/-- `generateAndCacheAnalytics` (`src/services/analytics-complex.ts`):
iterate `cacheStep` over the four timeframes.  `bucketStart` gives each
timeframe's bucket-start timestamp (`startOfHour`/`startOfDay`/... of
the current time); `metricsFor` the metrics `generateDashboardMetrics`
would compute at that moment. -/
def generateAndCacheAnalytics (db : List AnalyticsRec)
    (bucketStart : Timeframe → ℤ) (metricsFor : Timeframe → Overview) :
    List AnalyticsRec :=
  [Timeframe.hour, Timeframe.day, Timeframe.week, Timeframe.month].foldl
    (fun acc tf => cacheStep acc tf (bucketStart tf) (metricsFor tf)) db

/-! ## `src/services/scraper.ts` — dedup identity and persistence -/

/-- A scraped raw article (`ScrapedArticle` in `src/services/scraper.ts`);
the fields relevant to identity and persistence. -/
structure ScrapedArticleRec where
  title : String
  description : String
  content : String
  url : String
  source : String
deriving DecidableEq, Repr

/-- A persisted `Article` as far as identity is concerned: the copied
raw fields plus the URL hash. -/
structure SavedArticle where
  title : String
  url : String
  urlHash : String
deriving DecidableEq, Repr

/-- `generateArticleHash` (`src/services/scraper.ts`): the hex digest of
the cryptographic hash of the URL string alone.  `sha` abstracts the
Node `crypto` digest (SHA-256 by default). -/
def generateArticleHash (sha : String → String) (url : String) : String :=
  sha url

/-- The duplicate check `Article.findOne({ urlHash })` performed before
enrichment and again immediately before the save. -/
def isDuplicate (sha : String → String) (db : List SavedArticle)
    (url : String) : Bool :=
  db.any (fun e => e.urlHash = generateArticleHash sha url)

/-- One iteration of the `processAndSaveArticles` loop
(`src/services/scraper.ts`): recompute the URL hash, re-check for a
duplicate, skip if present, otherwise construct and save the `Article`.
Enrichment never aborts an article (each enrichment call is wrapped in
its own try/catch with a fallback value), so the saved record is a
total function of the raw article. -/
def saveStep (sha : String → String) (db : List SavedArticle)
    (a : ScrapedArticleRec) : List SavedArticle :=
  if isDuplicate sha db a.url then db
  else db ++ [{ title := a.title, url := a.url,
                urlHash := generateArticleHash sha a.url }]

/-- `processAndSaveArticles` (`src/services/scraper.ts`): cap the batch
at `Math.min(length, 10)` articles, then run the per-article loop
against the article store `db`. -/
def processAndSaveArticles (sha : String → String) (db : List SavedArticle)
    (scraped : List ScrapedArticleRec) : List SavedArticle :=
  (scraped.take (min scraped.length 10)).foldl (saveStep sha) db

/-! ## `src/services/scraper.ts` — RSS source status fields -/

/-- The status fields of a persisted `RSSSource` that `scrapeRSSFeeds`
mutates, plus its name. -/
structure RSSSourceState where
  name : String
  errorCount : ℕ
  lastError : Option String
  lastFetched : Option ℤ
  lastSuccessful : Option ℤ
deriving DecidableEq, Repr

/-- The status update `scrapeRSSFeeds` (`src/services/scraper.ts`)
applies to one source.  On success (`parser.parseURL` and the item loop
complete): set both fetch timestamps and zero the error count.  On
failure (the catch branch): set `lastFetched`, increment `errorCount`,
record the error message. -/
def processSource (now : ℤ) (outcome : Except String Unit)
    (s : RSSSourceState) : RSSSourceState :=
  match outcome with
  | .ok _ =>
    { s with lastFetched := some now, lastSuccessful := some now,
             errorCount := 0 }
  | .error msg =>
    { s with lastFetched := some now, errorCount := s.errorCount + 1,
             lastError := some msg }

/-- The per-source loop of `scrapeRSSFeeds`: every active source is
processed, each inside its own try/catch, so one source's outcome never
affects another's. `fetchOutcome` gives each source's fetch result. -/
def scrapeRSSFeedsStatus (now : ℤ)
    (fetchOutcome : RSSSourceState → Except String Unit)
    (sources : List RSSSourceState) : List RSSSourceState :=
  sources.map (fun s => processSource now (fetchOutcome s) s)

/-! ## `src/services/scraper.ts` — HTML content extraction -/

/-- `.map(el => text().trim()).get().filter(t => t.length > 20)`:
trim each paragraph text, keep those longer than 20 characters. -/
def filterParas (paras : List String) : List String :=
  (paras.map jsTrim).filter (fun t => 20 < t.length)

/-- The joined content one selector yields:
filtered paragraph texts joined with a newline. -/
def selectorContent (paras : List String) : String :=
  String.intercalate "\n" (filterParas paras)

/-- The selector loop of `extractFullContent` (`src/services/scraper.ts`).
Each element of the list is the paragraph texts one content selector
matched, in the selectors' listed order.  A selector with at least two
matched elements overwrites `content`; the loop breaks as soon as the
joined filtered text exceeds 100 characters. -/
def selectorLoop : List (List String) → String → String
  | [], content => content
  | sel :: rest, content =>
    if 2 ≤ sel.length then
      let c := selectorContent sel
      if 100 < c.length then c else selectorLoop rest c
    else selectorLoop rest content

/-- The generic fallback of `extractFullContent`: all page paragraphs
longer than 20 characters after trimming, capped at the first 10,
joined with a newline. -/
def fallbackContent (allParas : List String) : String :=
  String.intercalate "\n" ((filterParas allParas).take 10)

/-- `extractFullContent` (`src/services/scraper.ts`), given the
paragraph texts each content selector matches (`selectorMatches`, in
listed order) and the page's full paragraph list (`allParas`): run the
selector loop, fall back to the generic paragraph path when the result
is empty or under 100 characters, and return the trimmed content. -/
def extractFullContent (selectorMatches : List (List String))
    (allParas : List String) : String :=
  let content := selectorLoop selectorMatches ""
  let content' :=
    if content = "" ∨ content.length < 100 then fallbackContent allParas
    else content
  jsTrim content'

/-- A content selector "succeeds" when it matches at least two elements
and their combined filtered text exceeds the 100-character minimum —
the condition under which the selector loop accepts it and breaks. -/
def selectorSucceeds (sel : List String) : Prop :=
  2 ≤ sel.length ∧ 100 < (selectorContent sel).length

instance (sel : List String) : Decidable (selectorSucceeds sel) := by
  unfold selectorSucceeds; exact inferInstance

/-! ## Date parsing (`src/services/webScraper.ts` and `src/services/scraper.ts`) -/

/-- `parseDate` in `src/services/webScraper.ts`: `new Date(dateString)`;
return it when valid (`!isNaN(date.getTime())`), else fall back to the
current time.  `nativeParse` abstracts the JavaScript `Date` string
parser: `none` means the string did not parse (an Invalid Date). -/
def parseDate (nativeParse : String → Option ℤ) (now : ℤ)
    (dateString : String) : ℤ :=
  match nativeParse dateString with
  | some t => t
  | none => now

/-- The argument JavaScript evaluates in
`new Date(item.pubDate || item.isoDate || Date.now())`
(`src/services/scraper.ts`, RSS adapter): the first non-empty present
date string, if any. -/
def rssDateArg (pubDate isoDate : Option String) : Option String :=
  jsOrStr pubDate (jsOrStr isoDate none)

/-- The RSS adapter's published timestamp: when a non-empty date string
is present it is handed to the native `Date` parser (whose failure
yields an Invalid Date, modelled as `none`); only when both fields are
missing or empty does `Date.now()` take over. -/
def rssPublishedAt (nativeParse : String → Option ℤ) (now : ℤ)
    (pubDate isoDate : Option String) : Option ℤ :=
  match rssDateArg pubDate isoDate with
  | some s => nativeParse s
  | none => some now

/-! ## Helper lemmas -/

lemma addSystemLog_length_le (logs : List SystemLog) (e : SystemLog) :
    (addSystemLog logs e).length ≤ MAX_LOGS := by
  unfold addSystemLog
  by_cases hc : MAX_LOGS < (e :: logs).length
  · simp only [if_pos hc, List.length_take]
    omega
  · simp only [if_neg hc]
    simp only [List.length_cons] at hc ⊢
    omega

lemma take_maxLogs_cons (e : SystemLog) (logs : List SystemLog) :
    (e :: logs).take MAX_LOGS = e :: logs.take (MAX_LOGS - 1) := rfl

/-! ## Theorems -/

/-- **C10**: the in-memory system log buffer is bounded: after any
sequence of `addSystemLog` calls starting from the empty buffer it holds
at most 1000 entries; each call prepends the new entry (entries are
newest-first, the result being the new entry followed by a prefix of the
old buffer); a call below the bound keeps every old entry; and once the
bound is reached each call discards exactly the oldest entry. -/
theorem addSystemLog_bounded_ring_buffer :
    (∀ es : List SystemLog, ((es.foldl addSystemLog []).length ≤ MAX_LOGS))
  ∧ (∀ logs e, ∃ rest, addSystemLog logs e = e :: rest ∧ rest <+: logs)
  ∧ (∀ logs e, logs.length < MAX_LOGS → addSystemLog logs e = e :: logs)
  ∧ (∀ logs e, logs.length = MAX_LOGS →
      addSystemLog logs e = e :: logs.dropLast) := by
  refine ⟨?_, ?_, ?_, ?_⟩
  · intro es
    suffices h : ∀ (l : List SystemLog) (db : List SystemLog),
        db.length ≤ MAX_LOGS → (l.foldl addSystemLog db).length ≤ MAX_LOGS by
      exact h es [] (by simp [MAX_LOGS])
    intro l
    induction l with
    | nil => intro db h; simpa using h
    | cons a tl ih =>
      intro db _
      exact ih _ (addSystemLog_length_le db a)
  · intro logs e
    unfold addSystemLog
    by_cases hc : MAX_LOGS < (e :: logs).length
    · refine ⟨logs.take (MAX_LOGS - 1), ?_, List.take_prefix _ _⟩
      simp only [if_pos hc, take_maxLogs_cons]
    · exact ⟨logs, by simp only [if_neg hc], List.prefix_refl _⟩
  · intro logs e h
    unfold addSystemLog
    rw [if_neg]
    simp only [List.length_cons]
    omega
  · intro logs e h
    unfold addSystemLog
    rw [if_pos (by simp [List.length_cons, h])]
    rw [take_maxLogs_cons, List.dropLast_eq_take, h]

/-- A concrete old log entry, for the C10 witness. -/
def logOld : SystemLog :=
  { timestamp := "t0", level := "info", message := "m0", details := none }

/-- A concrete new log entry, for the C10 witness. -/
def logNew : SystemLog :=
  { timestamp := "t1", level := "error", message := "m1", details := none }

/-- Closed instance of **C10** at the bound: a buffer of exactly 1000
entries, on one more append, keeps the new entry plus all but the oldest
old entry. -/
theorem addSystemLog_bounded_ring_buffer_witness :
    (List.replicate 1000 logOld).length = MAX_LOGS
  ∧ addSystemLog (List.replicate 1000 logOld) logNew
      = logNew :: (List.replicate 1000 logOld).dropLast := by
  refine ⟨by simp only [List.length_replicate, MAX_LOGS], ?_⟩
  exact addSystemLog_bounded_ring_buffer.2.2.2 _ _
    (by simp only [List.length_replicate, MAX_LOGS])

/-- **C4**: for every enrichment outcome, `analyzeSentiment` returns a
score in `[-1,1]` and a confidence in `[0,1]`; on a transport error and
on a JSON-parse failure it returns the neutral fallback
(score 0, confidence 0.1, label neutral) instead of propagating the
error. -/
theorem analyzeSentiment_clamped_and_neutral_fallback :
    (∀ call, -1 ≤ (analyzeSentiment call).score
        ∧ (analyzeSentiment call).score ≤ 1
        ∧ 0 ≤ (analyzeSentiment call).confidence
        ∧ (analyzeSentiment call).confidence ≤ 1)
  ∧ analyzeSentiment (.error ()) =
      { score := 0, confidence := 1/10, label := .neutral, emotions := none }
  ∧ analyzeSentiment (.ok none) =
      { score := 0, confidence := 1/10, label := .neutral, emotions := none } := by
  refine ⟨?_, ?_, ?_⟩
  · intro call
    cases call with
    | error e =>
      refine ⟨by norm_num [analyzeSentiment, sentimentErrorFallback], ?_, ?_, ?_⟩
        <;> norm_num [analyzeSentiment, sentimentErrorFallback]
    | ok parsed =>
      refine ⟨le_max_left _ _, ?_, le_max_left _ _, ?_⟩
      · exact max_le (by norm_num) (min_le_left _ _)
      · exact max_le (by norm_num) (min_le_left _ _)
  · rfl
  · have hlabel : normalizeSentimentLabel (some "neutral") = .neutral := by decide
    simp only [analyzeSentiment, callOpenRouterSentiment, sentimentParseFallback,
      jsOrNum, Option.map_none, hlabel]
    norm_num

/-- **C5**: `generateDashboardMetrics` over a window containing zero
articles returns `totalArticles = 0`, `averageSentiment = 0`, an all-zero
sentiment distribution and empty top-keyword/top-source lists; every
guarded mean of the analytics engine yields 0 on an empty article set
(overall average, trend buckets, and the per-entry `count > 0` guard),
with no division error possible. -/
theorem generateDashboardOverview_empty_window :
    generateDashboardOverview [] =
      { totalArticles := 0, averageSentiment := 0,
        sentimentDistribution := { positive := 0, negative := 0, neutral := 0 },
        topKeywords := [], topSources := [] }
  ∧ guardedMean [] = 0
  ∧ trendValue [] = 0
  ∧ (∀ (k : String) (s : ℚ), topTen [(k, 0, s)] =
      [{ key := k, count := 0, sentiment := 0 }]) := by
  refine ⟨rfl, rfl, rfl, ?_⟩
  intro k s
  simp [topTen, sortByCountDesc, insertByCount]

/-- **C2**: a `volume_spike` alert is emitted by `checkKeywordAlerts` if
and only if the volume percent change — `(recent - previous) / previous
× 100` when the previous count is positive, else 0 — meets or exceeds
the track's volume threshold, with severity `high` exactly when the
change exceeds 100 and `medium` otherwise; and concretely, previous
count 10 and recent count 25 give a change of 150, so threshold 50
yields exactly one alert, a high-severity volume spike. -/
theorem volume_spike_alert_correct :
    (∀ (recent previous : List ℚ) (thr : AlertThreshold) (s : Severity),
      ((⟨.volume_spike, s⟩ : AlertRec) ∈ checkKeywordAlerts recent previous thr
        ↔ thr.volumeSpike ≤ volumeChange recent.length previous.length
          ∧ s = (if 100 < volumeChange recent.length previous.length
                 then .high else .medium)))
  ∧ volumeChange 25 10 = 150
  ∧ checkKeywordAlerts (List.replicate 25 0) (List.replicate 10 0)
      { sentimentChange := 50, volumeSpike := 50 }
      = [{ kind := .volume_spike, severity := .high }] := by
  refine ⟨?_, by norm_num [volumeChange], ?_⟩
  · intro recent previous thr s
    simp only [checkKeywordAlerts, List.mem_append]
    split_ifs with h1 h2 h3 <;>
      simp_all [AlertRec.mk.injEq, eq_comm]
  · norm_num [checkKeywordAlerts, volumeChange, List.sum_replicate]

/-- Closed instance of **C2**: with recent count 25, previous count 10
and volume threshold 50, a high-severity volume-spike alert is among
the emitted alerts. -/
theorem volume_spike_alert_correct_witness :
    ({ kind := .volume_spike, severity := .high } : AlertRec)
      ∈ checkKeywordAlerts (List.replicate 25 0) (List.replicate 10 0)
          { sentimentChange := 50, volumeSpike := 50 } :=
  (volume_spike_alert_correct.1 (List.replicate 25 0) (List.replicate 10 0)
      { sentimentChange := 50, volumeSpike := 50 } .high).mpr
    (by norm_num [volumeChange])

/-- **C3**: a `sentiment_change` alert is emitted by
`checkKeywordAlerts` if and only if both 24-hour periods contain at
least one article and `|recentMean - previousMean| × 100` meets or
exceeds the track's sentiment threshold, with severity `high` exactly
when that change exceeds 50 and `medium` otherwise; and concretely,
previous mean -0.2 and recent mean 0.1 give a change of 30: threshold
20 yields exactly one medium alert, threshold 40 yields no alert. -/
theorem sentiment_change_alert_correct :
    (∀ (recent previous : List ℚ) (thr : AlertThreshold) (s : Severity),
      ((⟨.sentiment_change, s⟩ : AlertRec) ∈ checkKeywordAlerts recent previous thr
        ↔ 0 < recent.length ∧ 0 < previous.length
          ∧ thr.sentimentChange ≤ sentimentChangeOf recent previous
          ∧ s = (if 50 < sentimentChangeOf recent previous
                 then .high else .medium)))
  ∧ sentimentChangeOf [1/10] [-(1/5)] = 30
  ∧ checkKeywordAlerts [1/10] [-(1/5)]
      { sentimentChange := 20, volumeSpike := 50 }
      = [{ kind := .sentiment_change, severity := .medium }]
  ∧ checkKeywordAlerts [1/10] [-(1/5)]
      { sentimentChange := 40, volumeSpike := 50 } = [] := by
  refine ⟨?_, ?_, ?_, ?_⟩
  · intro recent previous thr s
    simp only [checkKeywordAlerts, sentimentChangeOf, List.mem_append]
    split_ifs with h1 h2 h3 <;>
      simp_all [AlertRec.mk.injEq, eq_comm]
  · norm_num [sentimentChangeOf, abs_of_nonneg]
  · norm_num [checkKeywordAlerts, volumeChange, abs_of_nonneg]
  · norm_num [checkKeywordAlerts, volumeChange, abs_of_nonneg]

/-- Closed instance of **C3**: with single-article periods of means 0.1
and -0.2 and sentiment threshold 20, a medium-severity sentiment-change
alert is among the emitted alerts. -/
theorem sentiment_change_alert_correct_witness :
    ({ kind := .sentiment_change, severity := .medium } : AlertRec)
      ∈ checkKeywordAlerts [1/10] [-(1/5)]
          { sentimentChange := 20, volumeSpike := 50 } :=
  (sentiment_change_alert_correct.1 [1/10] [-(1/5)]
      { sentimentChange := 20, volumeSpike := 50 } .medium).mpr
    (by norm_num [sentimentChangeOf, abs_of_nonneg])

lemma isDuplicate_iff {sha : String → String} {db : List SavedArticle}
    {url : String} :
    isDuplicate sha db url = true ↔
      generateArticleHash sha url ∈ db.map SavedArticle.urlHash := by
  unfold isDuplicate
  rw [List.any_eq_true]
  constructor
  · rintro ⟨e, he, heq⟩
    rw [decide_eq_true_eq] at heq
    exact heq ▸ List.mem_map_of_mem _ he
  · intro hx
    rcases List.mem_map.mp hx with ⟨e, he, heq⟩
    exact ⟨e, he, decide_eq_true heq⟩

lemma saveStep_of_dup {sha : String → String} {db : List SavedArticle}
    {a : ScrapedArticleRec} (h : isDuplicate sha db a.url = true) :
    saveStep sha db a = db := by
  unfold saveStep
  rw [if_pos h]

lemma saveStep_hashes_nodup (sha : String → String) (db : List SavedArticle)
    (a : ScrapedArticleRec)
    (h : (db.map SavedArticle.urlHash).Nodup) :
    ((saveStep sha db a).map SavedArticle.urlHash).Nodup := by
  unfold saveStep
  split
  · exact h
  · rename_i hdup
    rw [List.map_append]
    simp only [List.map_cons, List.map_nil]
    rw [List.nodup_append]
    refine ⟨h, List.nodup_singleton _, ?_⟩
    intro x hx hmem
    rw [List.mem_singleton] at hmem
    subst hmem
    exact hdup (isDuplicate_iff.mpr hx)

lemma foldl_saveStep_hashes_nodup (sha : String → String) :
    ∀ (l : List ScrapedArticleRec) (db : List SavedArticle),
      (db.map SavedArticle.urlHash).Nodup →
      ((l.foldl (saveStep sha) db).map SavedArticle.urlHash).Nodup := by
  intro l
  induction l with
  | nil => intro db h; simpa using h
  | cons a tl ih =>
    intro db h
    exact ih _ (saveStep_hashes_nodup sha db a h)

/-- **C1**: article identity is a function of the URL alone — two raw
articles with identical URLs get the same URL hash whatever their
titles or bodies; after the first is saved, the duplicate re-check
reports the second as a duplicate and processing it is a no-op; and
`processAndSaveArticles` preserves distinctness of persisted URL
hashes, i.e. it never persists a second `Article` with an
already-persisted URL hash. -/
theorem article_identity_is_url_hash :
    (∀ (sha : String → String) (a b : ScrapedArticleRec), a.url = b.url →
        generateArticleHash sha a.url = generateArticleHash sha b.url)
  ∧ (∀ (sha : String → String) (db : List SavedArticle)
        (a b : ScrapedArticleRec), a.url = b.url →
        isDuplicate sha (saveStep sha db a) b.url = true)
  ∧ (∀ (sha : String → String) (db : List SavedArticle)
        (a b : ScrapedArticleRec), a.url = b.url →
        saveStep sha (saveStep sha db a) b = saveStep sha db a)
  ∧ (∀ (sha : String → String) (db : List SavedArticle)
        (scraped : List ScrapedArticleRec),
        (db.map SavedArticle.urlHash).Nodup →
        ((processAndSaveArticles sha db scraped).map SavedArticle.urlHash).Nodup) := by
  have hdup : ∀ (sha : String → String) (db : List SavedArticle)
      (a b : ScrapedArticleRec), a.url = b.url →
      isDuplicate sha (saveStep sha db a) b.url = true := by
    intro sha db a b hab
    rw [← hab]
    unfold saveStep
    split
    · assumption
    · rw [isDuplicate_iff, List.map_append]
      simp [generateArticleHash]
  refine ⟨?_, hdup, ?_, ?_⟩
  · intro sha a b hab
    rw [hab]
  · intro sha db a b hab
    exact saveStep_of_dup (hdup sha db a b hab)
  · intro sha db scraped h
    exact foldl_saveStep_hashes_nodup sha _ db h

/-- A concrete raw article, for the C1 witness. -/
def rawA : ScrapedArticleRec :=
  { title := "first title"
    description := "d1"
    content := "body one"
    url := "https://example.com/a"
    source := "s" }

/-- A second concrete raw article with the same URL but different title
and body, for the C1 witness. -/
def rawB : ScrapedArticleRec :=
  { title := "second title"
    description := "d2"
    content := "body two"
    url := "https://example.com/a"
    source := "s" }

/-- Closed instance of **C1**: two concrete raw articles with the same
URL but different titles and bodies — processing the second after the
first is a no-op, and the resulting store still has distinct hashes. -/
theorem article_identity_is_url_hash_witness :
    saveStep id (saveStep id [] rawA) rawB = saveStep id [] rawA
  ∧ ((processAndSaveArticles id [] [rawA, rawB]).map
      SavedArticle.urlHash).Nodup := by
  constructor
  · exact article_identity_is_url_hash.2.2.1 id [] rawA rawB rfl
  · exact article_identity_is_url_hash.2.2.2 id [] [rawA, rawB] (by simp)

lemma exists_bucket_iff_any {db : List AnalyticsRec} {tf : Timeframe} {d : ℤ} :
    (db.any (fun r => r.date = d ∧ r.timeframe = tf)) = true ↔
      ∃ r ∈ db, r.date = d ∧ r.timeframe = tf := by
  rw [List.any_eq_true]
  constructor
  · rintro ⟨r, hr, hp⟩
    exact ⟨r, hr, of_decide_eq_true hp⟩
  · rintro ⟨r, hr, hp⟩
    exact ⟨r, hr, decide_eq_true hp⟩

lemma cacheStep_of_present {db : List AnalyticsRec} {tf : Timeframe} {d : ℤ}
    (m : Overview) (h : ∃ r ∈ db, r.date = d ∧ r.timeframe = tf) :
    cacheStep db tf d m = db := by
  unfold cacheStep
  rw [if_pos (exists_bucket_iff_any.mpr h)]

lemma mem_cacheStep_of_mem {db : List AnalyticsRec} {r : AnalyticsRec}
    (tf : Timeframe) (d : ℤ) (m : Overview) (h : r ∈ db) :
    r ∈ cacheStep db tf d m := by
  unfold cacheStep
  split
  · exact h
  · exact List.mem_append_left _ h

lemma exists_bucket_cacheStep (db : List AnalyticsRec) (tf : Timeframe)
    (d : ℤ) (m : Overview) :
    ∃ r ∈ cacheStep db tf d m, r.date = d ∧ r.timeframe = tf := by
  unfold cacheStep
  split
  · rename_i hany
    exact exists_bucket_iff_any.mp hany
  · exact ⟨{ date := d, timeframe := tf, metrics := m },
      List.mem_append_right _ (List.mem_singleton.mpr rfl), rfl, rfl⟩

lemma exists_bucket_cacheStep_of_exists {db : List AnalyticsRec}
    {tf : Timeframe} {d : ℤ} (tf' : Timeframe) (d' : ℤ) (m : Overview)
    (h : ∃ r ∈ db, r.date = d ∧ r.timeframe = tf) :
    ∃ r ∈ cacheStep db tf' d' m, r.date = d ∧ r.timeframe = tf := by
  rcases h with ⟨r, hr, hp⟩
  exact ⟨r, mem_cacheStep_of_mem tf' d' m hr, hp⟩

lemma countBucket_cacheStep_zero {db : List AnalyticsRec} {tf : Timeframe}
    {d : ℤ} (m : Overview) (h : countBucket db tf d = 0) :
    cacheStep db tf d m =
      db ++ [{ date := d, timeframe := tf, metrics := m }] := by
  unfold cacheStep
  rw [if_neg]
  intro hany
  rcases exists_bucket_iff_any.mp hany with ⟨r, hr, hp⟩
  have : r ∈ db.filter (fun r => r.date = d ∧ r.timeframe = tf) :=
    List.mem_filter.mpr ⟨hr, decide_eq_true hp⟩
  rw [countBucket, List.length_eq_zero] at h
  rw [h] at this
  exact List.not_mem_nil r this

/-- **C6**: snapshot caching is idempotent.  For each
`(timeframe, bucket-start)` pair the cache step first checks for an
existing `Analytics` record at that bucket start and is a no-op when one
exists; running the step twice persists exactly one record for a bucket
that had none; and a second run of the whole
`generateAndCacheAnalytics` loop within the same calendar buckets
changes nothing. -/
theorem cacheSnapshot_idempotent :
    (∀ (db : List AnalyticsRec) (tf : Timeframe) (d : ℤ) (m : Overview),
        (∃ r ∈ db, r.date = d ∧ r.timeframe = tf) → cacheStep db tf d m = db)
  ∧ (∀ (db : List AnalyticsRec) (tf : Timeframe) (d : ℤ) (m m' : Overview),
        cacheStep (cacheStep db tf d m) tf d m' = cacheStep db tf d m)
  ∧ (∀ (db : List AnalyticsRec) (tf : Timeframe) (d : ℤ) (m m' : Overview),
        countBucket db tf d = 0 →
        countBucket (cacheStep (cacheStep db tf d m) tf d m') tf d = 1)
  ∧ (∀ (db : List AnalyticsRec) (b : Timeframe → ℤ)
        (m m' : Timeframe → Overview),
        generateAndCacheAnalytics (generateAndCacheAnalytics db b m) b m'
          = generateAndCacheAnalytics db b m) := by
  have hstep2 : ∀ (db : List AnalyticsRec) (tf : Timeframe) (d : ℤ)
      (m m' : Overview),
      cacheStep (cacheStep db tf d m) tf d m' = cacheStep db tf d m :=
    fun db tf d m m' =>
      cacheStep_of_present m' (exists_bucket_cacheStep db tf d m)
  refine ⟨fun db tf d m => cacheStep_of_present m, hstep2, ?_, ?_⟩
  · intro db tf d m m' h
    rw [hstep2, countBucket_cacheStep_zero m h, countBucket,
      List.filter_append]
    simp only [List.length_append]
    rw [countBucket] at h
    rw [h]
    simp
  · intro db b m m'
    unfold generateAndCacheAnalytics
    simp only [List.foldl_cons, List.foldl_nil]
    set S1 := cacheStep db .hour (b .hour) (m .hour) with hS1
    set S2 := cacheStep S1 .day (b .day) (m .day) with hS2
    set S3 := cacheStep S2 .week (b .week) (m .week) with hS3
    set S4 := cacheStep S3 .month (b .month) (m .month) with hS4
    have hhour : ∃ r ∈ S4, r.date = b .hour ∧ r.timeframe = .hour := by
      refine exists_bucket_cacheStep_of_exists _ _ _
        (exists_bucket_cacheStep_of_exists _ _ _
          (exists_bucket_cacheStep_of_exists _ _ _ ?_))
      exact exists_bucket_cacheStep db .hour (b .hour) (m .hour)
    have hday : ∃ r ∈ S4, r.date = b .day ∧ r.timeframe = .day := by
      refine exists_bucket_cacheStep_of_exists _ _ _
        (exists_bucket_cacheStep_of_exists _ _ _ ?_)
      exact exists_bucket_cacheStep S1 .day (b .day) (m .day)
    have hweek : ∃ r ∈ S4, r.date = b .week ∧ r.timeframe = .week := by
      refine exists_bucket_cacheStep_of_exists _ _ _ ?_
      exact exists_bucket_cacheStep S2 .week (b .week) (m .week)
    have hmonth : ∃ r ∈ S4, r.date = b .month ∧ r.timeframe = .month :=
      exists_bucket_cacheStep S3 .month (b .month) (m .month)
    rw [cacheStep_of_present (m' .hour) hhour,
      cacheStep_of_present (m' .day) hday,
      cacheStep_of_present (m' .week) hweek,
      cacheStep_of_present (m' .month) hmonth]

/-- Closed instance of **C6**: caching the `day` snapshot twice into an
empty store persists exactly one record for that bucket. -/
theorem cacheSnapshot_idempotent_witness :
    countBucket
      (cacheStep (cacheStep [] .day 0 (generateDashboardOverview []))
        .day 0 (generateDashboardOverview [])) .day 0 = 1 :=
  cacheSnapshot_idempotent.2.2.1 [] .day 0
    (generateDashboardOverview []) (generateDashboardOverview []) rfl

/-- A concrete RSS source that has previously failed (error count 3,
stored message "boom"), for the C7 counterexample. -/
def srcFailedBefore : RSSSourceState :=
  { name := "feed"
    errorCount := 3
    lastError := some "boom"
    lastFetched := none
    lastSuccessful := none }

/-- **C7 counterexample**: the claim says a successful fetch resets both
the error count and the stored error message.  On the source above, a
successful fetch at time 5 zeroes the error count and sets both
timestamps, but the stored error message is still "boom" — `scrapeRSSFeeds`
(`src/services/scraper.ts`) never writes `lastError` on its success
path, so the message is not reset. -/
theorem rss_success_keeps_lastError :
    processSource 5 (.ok ()) srcFailedBefore
      = { name := "feed", errorCount := 0, lastError := some "boom",
          lastFetched := some 5, lastSuccessful := some 5 }
  ∧ (some "boom" : Option String) ≠ none := by
  exact ⟨rfl, by simp⟩

/-- **C7 (amended)**: for every configured RSS source, a fetch failure
increments that source's error count by one, records the error message
and stamps `lastFetched`; a successful fetch resets the error count and
updates both fetch timestamps but leaves the stored error message
unchanged; and a per-source fetch failure never aborts the rest of the
cycle — every source in the list is status-updated from its own fetch
outcome alone. -/
theorem rss_source_status_updates :
    (∀ (now : ℤ) (msg : String) (s : RSSSourceState),
        processSource now (.error msg) s =
          { s with lastFetched := some now, errorCount := s.errorCount + 1,
                   lastError := some msg })
  ∧ (∀ (now : ℤ) (s : RSSSourceState),
        processSource now (.ok ()) s =
          { s with lastFetched := some now, lastSuccessful := some now,
                   errorCount := 0 })
  ∧ (∀ (now : ℤ) (s : RSSSourceState),
        (processSource now (.ok ()) s).lastError = s.lastError)
  ∧ (∀ (now : ℤ) (f : RSSSourceState → Except String Unit)
        (sources : List RSSSourceState),
        (scrapeRSSFeedsStatus now f sources).length = sources.length)
  ∧ (∀ (now : ℤ) (f : RSSSourceState → Except String Unit)
        (sources : List RSSSourceState) (i : ℕ),
        (scrapeRSSFeedsStatus now f sources)[i]? =
          (sources[i]?).map (fun s => processSource now (f s) s)) := by
  refine ⟨fun now msg s => rfl, fun now s => rfl, fun now s => rfl, ?_, ?_⟩
  · intro now f sources
    simp [scrapeRSSFeedsStatus]
  · intro now f sources i
    simp [scrapeRSSFeedsStatus, List.getElem?_map]

lemma selectorLoop_all_small :
    ∀ (sels : List (List String)) (content : String),
      (∀ s ∈ sels, s.length < 2) → selectorLoop sels content = content := by
  intro sels
  induction sels with
  | nil => intro content _; rfl
  | cons p rest ih =>
    intro content h
    have hp : p.length < 2 := h p (List.mem_cons_self _ _)
    simp only [selectorLoop]
    rw [if_neg (by omega)]
    exact ih content (fun s hs => h s (List.mem_cons_of_mem _ hs))

lemma selectorLoop_first_success :
    ∀ (pre : List (List String)) (sel : List String)
      (post : List (List String)) (content : String),
      (∀ s ∈ pre, ¬ selectorSucceeds s) → selectorSucceeds sel →
      selectorLoop (pre ++ sel :: post) content = selectorContent sel := by
  intro pre
  induction pre with
  | nil =>
    intro sel post content _ hsel
    simp only [List.nil_append, selectorLoop]
    rw [if_pos hsel.1, if_pos hsel.2]
  | cons p rest ih =>
    intro sel post content hpre hsel
    have hp := hpre p (List.mem_cons_self _ _)
    simp only [List.cons_append, selectorLoop]
    by_cases h2 : 2 ≤ p.length
    · rw [if_pos h2]
      have hc : ¬ 100 < (selectorContent p).length := fun hlen => hp ⟨h2, hlen⟩
      rw [if_neg hc]
      exact ih sel post _ (fun s hs => hpre s (List.mem_cons_of_mem _ hs)) hsel
    · rw [if_neg h2]
      exact ih sel post content
        (fun s hs => hpre s (List.mem_cons_of_mem _ hs)) hsel

/-- A generic page paragraph for the C8 concrete page (31+ characters,
no surrounding whitespace). -/
def para (i : ℕ) : String :=
  "generic page paragraph number " ++ toString i

/-- Twelve generic page paragraphs, each over 20 characters. -/
def twelveParas : List String :=
  (List.range 12).map para

set_option maxRecDepth 8000 in
/-- **C8**: the content selectors are tried in listed order and the
first selector matching at least two paragraphs whose combined filtered
text exceeds the 100-character minimum is accepted; when every selector
matches fewer than two paragraphs the extractor falls back to the
page's paragraphs longer than 20 characters, capped at the first 10;
concretely, a page where all ten content selectors match nothing but
whose generic paragraph list holds 12 paragraphs over 20 characters
each yields exactly the first 10 of them. -/
theorem extractFullContent_priority_and_fallback :
    (∀ (pre post : List (List String)) (sel : List String)
        (allParas : List String),
        (∀ s ∈ pre, ¬ selectorSucceeds s) → selectorSucceeds sel →
        extractFullContent (pre ++ sel :: post) allParas
          = jsTrim (selectorContent sel))
  ∧ (∀ (sels : List (List String)) (allParas : List String),
        (∀ s ∈ sels, s.length < 2) →
        extractFullContent sels allParas = jsTrim (fallbackContent allParas))
  ∧ ((∀ p ∈ twelveParas, 20 < p.length) ∧ twelveParas.length = 12
      ∧ extractFullContent (List.replicate 10 []) twelveParas
          = String.intercalate "\n" (twelveParas.take 10)) := by
  refine ⟨?_, ?_, ?_⟩
  · intro pre post sel allParas hpre hsel
    simp only [extractFullContent]
    rw [selectorLoop_first_success pre sel post "" hpre hsel]
    rw [if_neg]
    rintro (h0 | hlt)
    · have h100 := hsel.2
      rw [h0] at h100
      simp at h100
    · have h100 := hsel.2
      omega
  · intro sels allParas h
    simp only [extractFullContent]
    rw [selectorLoop_all_small sels "" h]
    rw [if_pos (Or.inl rfl)]
  · exact ⟨by decide, by decide, by decide⟩

/-- A long filler paragraph for the C8 witness (over 50 characters, so
two of them jointly exceed the 100-character minimum). -/
def longPara (i : ℕ) : String :=
  "this is a long paragraph of filler text for selector testing number "
    ++ toString i

/-- Closed instance of **C8**: a page whose first selector matches
nothing and whose second matches two long paragraphs takes the second
selector's content; a page where every selector matches at most one
paragraph takes the generic fallback. -/
theorem extractFullContent_priority_witness :
    extractFullContent [[], [longPara 100, longPara 101], [para 7]] []
      = jsTrim (selectorContent [longPara 100, longPara 101])
  ∧ extractFullContent [[], [para 7]] twelveParas
      = jsTrim (fallbackContent twelveParas) := by
  constructor
  · exact extractFullContent_priority_and_fallback.1 [[]] [[para 7]]
      [longPara 100, longPara 101] [] (by decide) (by decide)
  · exact extractFullContent_priority_and_fallback.2.1 [[], [para 7]]
      twelveParas (by decide)

/-- **C9 counterexample**: the claim says every adapter substitutes the
current time when the native date parse of the entry's date string
fails, including on malformed non-empty strings.  In the RSS adapter
(`src/services/scraper.ts`, `new Date(item.pubDate || item.isoDate ||
Date.now())`) a malformed non-empty `pubDate` is handed directly to the
native parser — here instantiated at a parser that rejects every
string, as the JavaScript `Date` parser rejects "not-a-date" — and the
result is an Invalid Date (`none`), not the current time 1000. -/
theorem rss_malformed_date_yields_invalid :
    rssPublishedAt (fun _ => none) 1000 (some "not-a-date") none = none
  ∧ (none : Option ℤ) ≠ some 1000 := by
  exact ⟨rfl, by simp⟩

/-- **C9 (amended)**: the HTML web-scraper adapter's `parseDate`
attempts a native timestamp parse and substitutes the current time on
any failure; the RSS adapter substitutes the current time only when the
entry's date fields are missing or empty, and hands any non-empty date
string — malformed or not — to the native parser, whose failure yields
an invalid date rather than the current time. -/
theorem date_parsing_per_adapter :
    (∀ (p : String → Option ℤ) (now : ℤ) (s : String),
        parseDate p now s = (p s).getD now)
  ∧ (∀ (p : String → Option ℤ) (now : ℤ),
        rssPublishedAt p now none none = some now)
  ∧ (∀ (p : String → Option ℤ) (now : ℤ),
        rssPublishedAt p now (some "") (some "") = some now)
  ∧ (∀ (p : String → Option ℤ) (now : ℤ) (s : String)
        (iso : Option String), s ≠ "" →
        rssPublishedAt p now (some s) iso = p s) := by
  refine ⟨?_, fun p now => rfl, fun p now => rfl, ?_⟩
  · intro p now s
    unfold parseDate
    cases p s <;> rfl
  · intro p now s iso hs
    simp only [rssPublishedAt, rssDateArg, jsOrStr, hs, if_false]

/-- Closed instance of **C9 (amended)**: a non-empty date string is
passed to the native parser and its result is used as-is. -/
theorem date_parsing_per_adapter_witness :
    rssPublishedAt (fun _ => some 7) 3 (some "2024-01-01") none = some 7 :=
  date_parsing_per_adapter.2.2.2 (fun _ => some 7) 3 "2024-01-01" none
    (by decide)

end NewsSA
